import Mathlib

/-
Verification of the gpt2_jax repository (src/gpt2_jax/config.py and
src/gpt2_jax/model.py).

The repository defines a GPT-2 style decoder-only transformer on top of
jax/flax.  We give a shallow embedding of the two source files:

* array values are modelled as nested lists of real numbers (the usual
  idealisation of IEEE floats by exact reals); shapes are dynamic, as in
  numpy, so shape claims are genuine theorems rather than typing facts;
* each flax module body (PositionalEncoder, MultiHeadAttention,
  FeedForward, TransformerDecoderLayer, GPT2) is translated into a pure
  Lean function over explicit parameter records;
* the dynamic (Python name / attribute / arity) behaviour that decides
  whether the code can run at all is modelled separately, by transcribing
  the name references of the class body of config.py, the attribute reads
  of MultiHeadAttention, and the call and return arities of
  TransformerDecoderLayer, and evaluating them in an error monad.

Dropout is modelled with an explicit keep map standing for the Bernoulli
draw of the pseudo random key; with deterministic = true it is the
identity, exactly as flax nn.Dropout.  nn.softmax subtracts the row
maximum before exponentiating, which over exact reals equals the plain
exp / sum form used here.
-/

namespace GPT2Jax

/-- Rank-1 array (a row of floats). -/
abbrev T1 : Type := List ℝ

/-- Rank-2 array. -/
abbrev T2 : Type := List T1

/-- Rank-3 array, indexed [batch][position][feature]. -/
abbrev T3 : Type := List T2

/-- Rank-4 array. -/
abbrev T4 : Type := List T3

/-- Batch of token ids, indexed [batch][position]; tokens are integers. -/
abbrev TokBatch : Type := List (List ℤ)

/-- Attention mask of logical shape [batch, 1, q_len, k_len]; the singleton
head axis of the flax mask is elided and reinstated by broadcasting where
the mask is applied, exactly as jnp.where broadcasts it. -/
abbrev Mask3 : Type := List (List (List Bool))

/-- Total indexing into a rank-1 array, 0 out of bounds. -/
def idx1 (v : T1) (i : ℕ) : ℝ := v.getD i 0

/-- Total indexing into a rank-2 array. -/
def idx2 (m : T2) (i j : ℕ) : ℝ := idx1 (m.getD i []) j

/-- Total indexing into a rank-3 array. -/
def idx3 (t : T3) (b i j : ℕ) : ℝ := idx2 (t.getD b []) i j

/-- Total indexing into a rank-4 array. -/
def idx4 (t : T4) (b h i j : ℕ) : ℝ := idx3 (t.getD b []) h i j

/-- Total indexing into a mask, false out of bounds. -/
def mAt (m : Mask3) (b i j : ℕ) : Bool := ((m.getD b []).getD i []).getD j false

/-- Sum of f over 0, 1, ..., n-1. -/
def sumRange (n : ℕ) (f : ℕ → ℝ) : ℝ := ((List.range n).map f).sum

/-- Python identifiers appearing in config.py and model.py that the
dynamic-semantics model has to talk about (modelled as an enumeration
rather than as strings).  nAny, nJnp, nList, nInt, nStr, nBool, nFloat,
nDataclasses stand for the names Any, jnp, List, int, str, bool, float,
dataclasses; nCkptPre, nCkptDir, nSpmModel, nTrainText stand for the
fields ckpt_pre fix, ckpt_dir, spm_model, train_text. -/
inductive PyName where
  | vocab_size | unk_id | bos_id | eos_id | pad_id | max_len | embed_dim
  | id_dtype | dtype | num_heads | num_layers | q_dim | v_dim | ff_dim
  | dropout_rate | special_ids | special_tokens | seed | batch_size
  | learning_rate | warmup_steps | num_epochs | save_ckpt_every_epochs
  | restore_checkpoints | nCkptPre | nCkptDir | nSpmModel | nTrainText
  | k_dim | nAny | nJnp | nList | nInt | nStr | nBool | nFloat
  | nDataclasses
  | nX | nMemory | nDecoderMask | nEncDecMask | nDeterministic
  deriving DecidableEq

/-- Python runtime errors that the gpt2_jax sources can raise before any
numeric work happens. -/
inductive PyErr where
  /-- NameError: the given name is not defined. -/
  | nameError (n : PyName)
  /-- AttributeError: the Config object has no such attribute. -/
  | attrError (n : PyName)
  /-- TypeError: a call supplied the wrong number of positional arguments. -/
  | typeErrArity
  /-- TypeError: a call supplied arguments of kinds the body cannot use. -/
  | typeErrBadArgs
  /-- ValueError: tuple unpacking received the wrong number of values. -/
  | valueErrUnpack
  deriving DecidableEq

/-- One statement of a Python class body: the names it reads when it is
evaluated (in evaluation order: the default value expression first, then
the annotation expression), and the names it binds. -/
abbrev ClassStmt : Type := List PyName × List PyName

/-- Transcription of the class body of Config (config.py lines 6-35):
for each field, the non-literal names its default and its annotation
read, and the field name it binds.  config.py imports only dataclasses,
so Any, jnp and List are free. -/
def configClassBody : List ClassStmt :=
  [ ([.nInt], [.vocab_size])
  , ([.nInt], [.unk_id])
  , ([.nInt], [.bos_id])
  , ([.nInt], [.eos_id])
  , ([.nInt], [.pad_id])
  , ([.nInt], [.max_len])
  , ([.nInt], [.embed_dim])
  , ([.nJnp, .nAny], [.id_dtype])
  , ([.nJnp, .nAny], [.dtype])
  , ([.nInt], [.num_heads])
  , ([.nInt], [.num_layers])
  , ([.embed_dim, .num_heads, .nInt], [.q_dim])
  , ([.embed_dim, .num_heads, .nInt], [.v_dim])
  , ([.nInt], [.ff_dim])
  , ([.nFloat], [.dropout_rate])
  , ([.nList, .nInt], [.special_ids])
  , ([.nList, .nStr], [.special_tokens])
  , ([.nInt], [.seed])
  , ([.nInt], [.batch_size])
  , ([.nFloat], [.learning_rate])
  , ([.nInt], [.warmup_steps])
  , ([.nInt], [.num_epochs])
  , ([.nInt], [.save_ckpt_every_epochs])
  , ([.nBool], [.restore_checkpoints])
  , ([.nStr], [.nCkptPre])
  , ([.nStr], [.nCkptDir])
  , ([.nStr], [.nSpmModel])
  , ([.nStr], [.nTrainText]) ]

/-- Names bound in the module scope of config.py when the class body runs:
the single import of config.py plus the builtins the body mentions. -/
def configModuleEnv : List PyName := [.nDataclasses, .nInt, .nStr, .nBool, .nFloat]

/-- Evaluates a class body in an environment: each statement first resolves
every name it reads (NameError on the first unbound one), then binds its
field name, which later statements may read. -/
def evalClassBody (env : List PyName) : List ClassStmt → Except PyErr (List PyName)
  | [] => .ok env
  | (refs, binds) :: rest =>
      match refs.find? (fun n => decide (n ∉ env)) with
      | some n => .error (.nameError n)
      | none => evalClassBody (env ++ binds) rest

/-- Importing config.py: evaluating the Config class body in the module
scope of config.py.  The first statement whose reads fail is
id_dtype : Any = jnp.int16, whose default reads jnp before its annotation
reads Any. -/
def configImport : Except PyErr (List PyName) :=
  evalClassBody configModuleEnv configClassBody

/-- Attribute names that a Config instance would carry: exactly the fields
the class body binds. -/
def configPyFieldNames : List PyName := (configClassBody.map Prod.snd).flatten

/-- Config attributes read by the body of MultiHeadAttention.__call__
(model.py lines 96-112). -/
def mhaConfigReads : List PyName := [.num_heads, .k_dim, .v_dim, .dtype, .embed_dim]

/-- Numeric hyperparameters the model code consumes.  k_dim is listed
because model.py reads config.k_dim; config.py never binds it (it binds
q_dim instead), which is recorded by configPyFieldNames above. -/
structure Config where
  vocab_size : ℕ
  pad_id : ℤ
  max_len : ℕ
  embed_dim : ℕ
  num_heads : ℕ
  num_layers : ℕ
  k_dim : ℕ
  v_dim : ℕ
  ff_dim : ℕ
  dropout_rate : ℝ

/-! ### Attention masks (model.py lines 234-241)

nn.make_attention_mask(q, k) with the default multiplicative pairwise
function and bool dtype yields mask[b, 0, i, j] = q[b, i] and k[b, j];
nn.make_causal_mask(src) yields mask[b, 0, i, j] = (i >= j);
nn.combine_masks takes the logical and. -/

/-- jnp.ones_like(src), cast to bool by make_attention_mask. -/
def onesLike (src : TokBatch) : List (List Bool) :=
  src.map (fun r => r.map (fun _ => true))

/-- src != config.pad_id, elementwise. -/
def srcNePad (cfg : Config) (src : TokBatch) : List (List Bool) :=
  src.map (fun r => r.map (fun t => decide (t ≠ cfg.pad_id)))

/-- nn.make_attention_mask over boolean inputs. -/
def makeAttentionMask (q k : List (List Bool)) : Mask3 :=
  List.zipWith (fun qr kr => qr.map (fun qi => kr.map (fun kj => qi && kj))) q k

/-- nn.make_causal_mask: position i may attend to position j iff i >= j. -/
def makeCausalMask (src : TokBatch) : Mask3 :=
  src.map (fun r =>
    (List.range r.length).map (fun i =>
      (List.range r.length).map (fun j => decide (j ≤ i))))

/-- nn.combine_masks of two masks: elementwise logical and. -/
def combineMasks (m1 m2 : Mask3) : Mask3 :=
  List.zipWith (List.zipWith (List.zipWith (fun a b => a && b))) m1 m2

/-- The decoder self-attention mask GPT2.__call__ builds (lines 234-241):
combine_masks of the key-padding mask and the causal mask. -/
def decoderMask (cfg : Config) (src : TokBatch) : Mask3 :=
  combineMasks (makeAttentionMask (onesLike src) (srcNePad cfg src)) (makeCausalMask src)

/-! ### Layer primitives (flax operators as used by model.py) -/

/-- flax nn.Dense(features): an affine map applied to the last axis.
W has logical shape [input_dim, features], b shape [features]; the output
length is the declared feature count, as in flax. -/
noncomputable def dense (features : ℕ) (W : T2) (b : T1) (v : T1) : T1 :=
  (List.range features).map (fun o => sumRange v.length (fun d => idx1 v d * idx2 W d o) + idx1 b o)

/-- Dense applied over the last axis of a rank-3 array. -/
noncomputable def dense3 (features : ℕ) (W : T2) (b : T1) (x : T3) : T3 :=
  x.map (fun r => r.map (dense features W b))

/-- nn.relu, elementwise maximum with 0. -/
noncomputable def relu3 (x : T3) : T3 :=
  x.map (fun r => r.map (fun v => v.map (fun a => max a 0)))

/-- nn.Dropout(rate)(x, deterministic): identity when deterministic, else
the kept entries (keep models the Bernoulli draw of the rng key) are
rescaled by 1 / (1 - rate) and the dropped entries become 0. -/
noncomputable def dropout3 (rate : ℝ) (keep : ℕ → ℕ → ℕ → Bool) (det : Bool) (x : T3) : T3 :=
  if det then x else
    (List.range x.length).map (fun b =>
      (List.range (x.getD b []).length).map (fun t =>
        (List.range ((x.getD b []).getD t []).length).map (fun d =>
          if keep b t d then idx3 x b t d / (1 - rate) else 0)))

/-- flax nn.LayerNorm on one feature row: center by the mean, scale by the
reciprocal square root of the variance plus epsilon (1e-6, the flax
default), then apply the learned scale and bias. -/
noncomputable def lnRow (scale bias : T1) (v : T1) : T1 :=
  (List.range v.length).map (fun i =>
    (idx1 v i - v.sum / (v.length : ℝ))
      / Real.sqrt ((v.map (fun a => (a - v.sum / (v.length : ℝ)) ^ 2)).sum / (v.length : ℝ) + 1e-6)
      * idx1 scale i + idx1 bias i)

/-- nn.LayerNorm over the last axis of a rank-3 array. -/
noncomputable def layerNorm3 (scale bias : T1) (x : T3) : T3 :=
  x.map (fun r => r.map (lnRow scale bias))

/-- Elementwise addition of two rank-3 arrays (the residual connections). -/
noncomputable def add3 (x y : T3) : T3 :=
  List.zipWith (List.zipWith (List.zipWith (fun a b => a + b))) x y

/-! ### PositionalEncoder (model.py lines 29-54) -/

/-- div_term of PositionalEncoder: entry m is
exp((2m) * (-log 10000 / embed_dim)), from jnp.arange(0, embed_dim, 2). -/
noncomputable def divTerm (cfg : Config) (m : ℕ) : ℝ :=
  Real.exp ((2 * (m : ℝ)) * (-Real.log 10000 / (cfg.embed_dim : ℝ)))

/-- radians[t, m] = t * div_term[m] (the einsum of lines 50). -/
noncomputable def radians (cfg : Config) (t m : ℕ) : ℝ :=
  (t : ℝ) * divTerm cfg m

/-- One positional-encoding row: even slots get sin(radians), odd slots
get cos(radians), as the strided set of lines 51-52. -/
noncomputable def peRow (cfg : Config) (t : ℕ) : T1 :=
  (List.range cfg.embed_dim).map (fun d =>
    if d % 2 = 0 then Real.sin (radians cfg t (d / 2)) else Real.cos (radians cfg t (d / 2)))

/-- The positional-encoding tensor of shape [B, L, embed_dim]; it does not
depend on the batch index. -/
noncomputable def peTensor (cfg : Config) (B L : ℕ) : T3 :=
  (List.range B).map (fun _ => (List.range L).map (fun t => peRow cfg t))

/-- PositionalEncoder.__call__: x + pe. -/
noncomputable def posEncoder (cfg : Config) (x : T3) : T3 :=
  x.map (fun bRow =>
    List.zipWith (fun t r => List.zipWith (fun a p => a + p) r (peRow cfg t))
      (List.range bRow.length) bRow)

/-! ### MultiHeadAttention (model.py lines 57-112) -/

/-- Learned parameters of one MultiHeadAttention module: the four Dense
layers of lines 96-98 and 111. -/
structure MHAParams where
  Wq : T2
  bq : T1
  Wk : T2
  bk : T1
  Wv : T2
  bv : T1
  Wo : T2
  bo : T1

/-- reshape(-1, seq_len, H, D) of a [B, seq_len, H*D] array (lines
100-102): row-major regrouping of the last axis. -/
noncomputable def reshape4 (H D : ℕ) (t : T3) : T4 :=
  t.map (fun row => row.map (fun v =>
    (List.range H).map (fun h => (List.range D).map (fun d => idx1 v (h * D + d)))))

/-- Dot product of two rows. -/
noncomputable def dot (a b : T1) : ℝ :=
  (List.zipWith (fun x y => x * y) a b).sum

/-- jnp.einsum of line 104 over [B, Lq, H, Dk] and [B, Lk, H, Dk]:
out[b, h, i, j] is the dot product of head h of query i and key j. -/
noncomputable def einsumQK (q4 k4 : T4) : T4 :=
  List.zipWith (fun qb kb =>
    (List.range (qb.getD 0 []).length).map (fun h =>
      qb.map (fun qi => kb.map (fun kj => dot (qi.getD h []) (kj.getD h [])))))
    q4 k4

/-- Pre-softmax attention scores (lines 96-105): project q and k with
Dense(num_heads * k_dim), reshape per head, contract, and divide by
jnp.sqrt(config.v_dim).  Note the divisor is the value head dimension:
the source scales by sqrt(v_dim), not sqrt(k_dim). -/
noncomputable def mhaScores (cfg : Config) (p : MHAParams) (q k : T3) : T4 :=
  (einsumQK
      (reshape4 cfg.num_heads cfg.k_dim (dense3 (cfg.num_heads * cfg.k_dim) p.Wq p.bq q))
      (reshape4 cfg.num_heads cfg.k_dim (dense3 (cfg.num_heads * cfg.k_dim) p.Wk p.bk k))).map
    (fun bh => bh.map (fun hq => hq.map (fun row => row.map (fun s => s / Real.sqrt (cfg.v_dim : ℝ)))))

/-- nn.softmax on one unmasked row: exp / sum of exp (nn.softmax subtracts
the row maximum first, which is the same real number). -/
noncomputable def softmaxRow (row : T1) : T1 :=
  (row.map Real.exp).map (fun a => a / (row.map Real.exp).sum)

/-- Lines 106-108 on one row: jnp.where(mask, scores, -inf) followed by
nn.softmax.  Over the reals, exp(-inf) = 0, so a masked slot contributes
0 to the numerator and to the normaliser.  When every slot of the row is
masked the float code divides 0 by 0 and produces NaN; in Lean 0 / 0 = 0,
and no theorem below relies on the value of such a row. -/
noncomputable def softmaxRowMasked (mrow : List Bool) (row : T1) : T1 :=
  (List.zipWith (fun mv s => if mv then Real.exp s else 0) mrow row).map
    (fun a => a / (List.zipWith (fun mv s => if mv then Real.exp s else 0) mrow row).sum)

/-- The attention matrix of MultiHeadAttention (lines 104-108), of logical
shape [B, num_heads, Lq, Lk]; the mask of shape [B, 1, Lq, Lk] broadcasts
over the head axis. -/
noncomputable def mhaAtt (cfg : Config) (p : MHAParams) (q k : T3) (mask : Option Mask3) : T4 :=
  match mask with
  | none => (mhaScores cfg p q k).map (fun sb => sb.map (fun sh => sh.map softmaxRow))
  | some m =>
      List.zipWith (fun sb mb => sb.map (fun sh => List.zipWith softmaxRowMasked mb sh))
        (mhaScores cfg p q k) m

/-- jnp.einsum of line 109 over [B, H, Lq, Lk] and [B, Lk, H, Dv]:
out[b, i, h, d] = sum over j of att[b, h, i, j] * v[b, j, h, d]. -/
noncomputable def einsumAV (att v4 : T4) : T4 :=
  List.zipWith (fun ab vb =>
    (List.range (ab.getD 0 []).length).map (fun i =>
      (List.range ab.length).map (fun h =>
        (List.range ((vb.getD 0 []).getD h []).length).map (fun d =>
          (List.zipWith (fun a vk => a * idx2 vk h d) ((ab.getD h []).getD i []) vb).sum))))
    att v4

/-- Line 110: reshape the weighted values back to [B, Lq, H*Dv]. -/
noncomputable def mhaValues3 (att v4 : T4) : T3 :=
  (einsumAV att v4).map (fun bi => bi.map List.flatten)

/-- MultiHeadAttention.__call__ (lines 96-112): the output and the
attention matrix. -/
noncomputable def mha (cfg : Config) (p : MHAParams) (q k v : T3) (mask : Option Mask3) :
    T3 × T4 :=
  (dense3 cfg.embed_dim p.Wo p.bo
      (mhaValues3 (mhaAtt cfg p q k mask)
        (reshape4 cfg.num_heads cfg.v_dim (dense3 (cfg.num_heads * cfg.v_dim) p.Wv p.bv v))),
    mhaAtt cfg p q k mask)

/-- One query row of the attention matrix: the weights with which query
position i of batch b, head h, attends over the keys. -/
noncomputable def mhaAttRow (cfg : Config) (p : MHAParams) (q k : T3) (mask : Option Mask3)
    (b h i : ℕ) : T1 :=
  (((mhaAtt cfg p q k mask).getD b []).getD h []).getD i []

/-! ### FeedForward (model.py lines 114-145) -/

/-- Learned parameters of one FeedForward module, with the keep maps of
its two dropout layers. -/
structure FFParams where
  W1 : T2
  b1 : T1
  W2 : T2
  b2 : T1
  keep1 : ℕ → ℕ → ℕ → Bool
  keep2 : ℕ → ℕ → ℕ → Bool

/-- FeedForward.__call__ (lines 140-145): Dense(ff_dim), relu, dropout,
Dense(embed_dim), dropout. -/
noncomputable def feedForward (cfg : Config) (p : FFParams) (det : Bool) (x : T3) : T3 :=
  dropout3 cfg.dropout_rate p.keep2 det
    (dense3 cfg.embed_dim p.W2 p.b2
      (dropout3 cfg.dropout_rate p.keep1 det
        (relu3 (dense3 cfg.ff_dim p.W1 p.b1 x))))

/-! ### TransformerDecoderLayer (model.py lines 147-200) -/

/-- Learned parameters of one TransformerDecoderLayer. -/
structure DecParams where
  saP : MHAParams
  caP : MHAParams
  k1 : ℕ → ℕ → ℕ → Bool
  k2 : ℕ → ℕ → ℕ → Bool
  ln1s : T1
  ln1b : T1
  ln2s : T1
  ln2b : T1
  ln3s : T1
  ln3b : T1
  ffP : FFParams

/-- TransformerDecoderLayer.__call__ body (lines 184-200): masked
self-attention, add and norm, source-target attention against memory, add
and norm, feed-forward, add and norm; returns the output and the two
attention matrices. -/
noncomputable def decoderLayer (cfg : Config) (p : DecParams) (x memory : T3)
    (dm em : Mask3) (det : Bool) : T3 × T4 × T4 :=
  let r1 := mha cfg p.saP x x x (some dm)
  let x1 := layerNorm3 p.ln1s p.ln1b (add3 x (dropout3 cfg.dropout_rate p.k1 det r1.1))
  let r2 := mha cfg p.caP x1 memory memory (some em)
  let x2 := layerNorm3 p.ln2s p.ln2b (add3 x1 (dropout3 cfg.dropout_rate p.k2 det r2.1))
  let x3 := layerNorm3 p.ln3s p.ln3b (add3 x2 (feedForward cfg p.ffP det x2))
  (x3, r1.2, r2.2)

/-! ### GPT2 (model.py lines 202-261) and the Python call dynamics -/

/-- nn.Embed(vocab_size, embed_dim) lookup over a token batch. -/
noncomputable def embedLookup (emb : T2) (src : TokBatch) : T3 :=
  src.map (fun r => r.map (fun t => emb.getD t.toNat []))

/-- Learned parameters of the whole GPT2 module. -/
structure GPT2Params where
  emb : T2
  layers : List DecParams
  lnFs : T1
  lnFb : T1
  Wout : T2
  bout : T1

/-- Python values flowing through the decoder-layer call of
GPT2.__call__. -/
inductive PyVal where
  | t3 (x : T3)
  | m3 (m : Mask3)
  | flag (b : Bool)
  | t4 (a : T4)

/-- Positional parameters of TransformerDecoderLayer.__call__ beyond self
(line 156-161); none of them has a default. -/
def decoderLayerParamNames : List PyName :=
  [.nX, .nMemory, .nDecoderMask, .nEncDecMask, .nDeterministic]

/-- The positional arguments GPT2.__call__ line 254 supplies to a decoder
layer: layer(x, decoder_mask, not train). -/
def decoderLayerCallArgs (x : T3) (m : Mask3) (det : Bool) : List PyVal :=
  [.t3 x, .m3 m, .flag det]

/-- Calling TransformerDecoderLayer.__call__: five well-kinded positional
arguments run the body; five ill-kinded arguments die on the asserts of
lines 178-181; any other count is a TypeError at binding time. -/
noncomputable def callDecoderLayer (cfg : Config) (p : DecParams) (args : List PyVal) :
    Except PyErr (List PyVal) :=
  match args with
  | [.t3 x, .t3 memory, .m3 dm, .m3 em, .flag det] =>
      .ok [.t3 (decoderLayer cfg p x memory dm em det).1,
           .t4 (decoderLayer cfg p x memory dm em det).2.1,
           .t4 (decoderLayer cfg p x memory dm em det).2.2]
  | [_, _, _, _, _] => .error .typeErrBadArgs
  | _ => .error .typeErrArity

/-- Tuple unpacking x, self_attention = ... of line 254: exactly two
values or a ValueError. -/
def unpack2 (vals : List PyVal) : Except PyErr (PyVal × PyVal) :=
  match vals with
  | [a, b] => .ok (a, b)
  | _ => .error .valueErrUnpack

/-- Coercion of an unpacked value to a rank-3 array. -/
def asT3 (v : PyVal) : Except PyErr T3 :=
  match v with
  | .t3 x => .ok x
  | _ => .error .typeErrBadArgs

/-- Coercion of an unpacked value to a rank-4 array. -/
def asT4 (v : PyVal) : Except PyErr T4 :=
  match v with
  | .t4 a => .ok a
  | _ => .error .typeErrBadArgs

/-- The decoder-layer loop of GPT2.__call__ (lines 252-255), one layer
parameter record per constructed layer. -/
noncomputable def gpt2Layers (cfg : Config) (lps : List DecParams) (dm : Mask3) (det : Bool)
    (x : T3) : Except PyErr (T3 × List T4) :=
  match lps with
  | [] => .ok (x, [])
  | p :: rest => do
      let ret ← callDecoderLayer cfg p (decoderLayerCallArgs x dm det)
      let pr ← unpack2 ret
      let x2 ← asT3 pr.1
      let sa ← asT4 pr.2
      let tl ← gpt2Layers cfg rest dm det x2
      .ok (tl.1, sa :: tl.2)

/-- Result of GPT2.__call__: the logits, with the per-layer self-attention
matrices when return_attn is true. -/
inductive GPT2Out where
  | logitsOnly (l : T3)
  | withAttn (l : T3) (atts : List T4)

/-- Evaluating the GPT-2 forward pass.  Running model.py first imports
Config from config.py (line 20), so evaluating the class body of Config
comes first; then the body of GPT2.__call__ (lines 231-261): the decoder
mask, the embedding, the positional encoding, the decoder-layer loop
with deterministic = not train, the final LayerNorm, and the vocabulary
projection Dense(vocab_size). -/
noncomputable def gpt2Forward (cfg : Config) (P : GPT2Params) (src : TokBatch)
    (train ra : Bool) : Except PyErr GPT2Out := do
  let _ ← configImport
  let r ← gpt2Layers cfg P.layers (decoderMask cfg src) (!train)
    (posEncoder cfg (embedLookup P.emb src))
  let logits := dense3 cfg.vocab_size P.Wout P.bout (layerNorm3 P.lnFs P.lnFb r.1)
  if ra then .ok (.withAttn logits r.2) else .ok (.logitsOnly logits)

/-! ### Shape predicates -/

/-- Boolean well-formedness of a rank-3 nested list: B rows of L rows of
D entries. -/
def wf3 {α : Type} (x : List (List (List α))) (B L D : ℕ) : Bool :=
  x.length == B && x.all (fun r => r.length == L && r.all (fun v => v.length == D))

/-- Every query row of the mask has at least one unmasked key. -/
def rowsNonempty (m : Mask3) : Bool :=
  m.all (fun bm => bm.all (fun row => row.any (fun v => v)))

/-- A small concrete configuration used by the witness statements:
pad_id 3 as in config.py, one head, one-dimensional heads. -/
noncomputable def cfgEx : Config :=
  { vocab_size := 2, pad_id := 3, max_len := 4, embed_dim := 2, num_heads := 1
    num_layers := 1, k_dim := 1, v_dim := 1, ff_dim := 1, dropout_rate := 0 }

/-- Trivial attention parameters for concrete evaluations. -/
def mha0 : MHAParams := ⟨[], [], [], [], [], [], [], []⟩

/-- Trivial feed-forward parameters for concrete evaluations. -/
def ff0 : FFParams := ⟨[], [], [], [], fun _ _ _ => true, fun _ _ _ => true⟩

/-- Trivial decoder-layer parameters for concrete evaluations. -/
def dp0 : DecParams :=
  ⟨mha0, mha0, fun _ _ _ => true, fun _ _ _ => true, [], [], [], [], [], [], ff0⟩

/-- Trivial GPT2 parameters with a single decoder layer. -/
def P0 : GPT2Params := ⟨[], [dp0], [], [], [], []⟩

/-- A configuration whose query/key head dimension (1) differs from its
value head dimension (4), separating sqrt(k_dim) from sqrt(v_dim). -/
noncomputable def cfgC5 : Config :=
  { vocab_size := 1, pad_id := 3, max_len := 4, embed_dim := 1, num_heads := 1
    num_layers := 1, k_dim := 1, v_dim := 4, ff_dim := 1, dropout_rate := 0 }

/-- Identity-like 1 x 1 attention weights. -/
noncomputable def pC5 : MHAParams := ⟨[[1]], [0], [[1]], [0], [[1]], [0], [[1]], [0]⟩

/-! ## Index lemmas for the nested-list arrays -/

theorem getD_map_lt {α β : Type} (l : List α) (f : α → β) {i : ℕ} (h : i < l.length)
    (d : β) (d0 : α) : (l.map f).getD i d = f (l.getD i d0) := by
  rw [List.getD_eq_getElem (l.map f) d (by simpa using h), List.getD_eq_getElem l d0 h,
    List.getElem_map]

theorem getD_zipWith_lt {α β γ : Type} (f : α → β → γ) (a : List α) (b : List β) {i : ℕ}
    (ha : i < a.length) (hb : i < b.length) (d : γ) (da : α) (db : β) :
    (List.zipWith f a b).getD i d = f (a.getD i da) (b.getD i db) := by
  rw [List.getD_eq_getElem (List.zipWith f a b) d
      (by rw [List.length_zipWith]; exact lt_min ha hb),
    List.getD_eq_getElem a da ha, List.getD_eq_getElem b db hb, List.getElem_zipWith]

theorem getD_range_lt {n i : ℕ} (h : i < n) (d : ℕ) : (List.range n).getD i d = i := by
  rw [List.getD_eq_getElem (List.range n) d (by simpa using h), List.getElem_range]

/-! ## The decoder mask (claim C2) -/

theorem mAt_makeAttentionMask (q k : List (List Bool)) (b i j : ℕ)
    (hb1 : b < q.length) (hb2 : b < k.length)
    (hi : i < (q.getD b []).length) (hj : j < (k.getD b []).length) :
    mAt (makeAttentionMask q k) b i j
      = ((q.getD b []).getD i false && (k.getD b []).getD j false) := by
  unfold mAt makeAttentionMask
  rw [getD_zipWith_lt _ q k hb1 hb2 [] [] []]
  rw [getD_map_lt (q.getD b []) _ hi [] false]
  rw [getD_map_lt (k.getD b []) _ hj false false]

theorem mAt_makeCausalMask (src : TokBatch) (b i j : ℕ) (hb : b < src.length)
    (hi : i < (src.getD b []).length) (hj : j < (src.getD b []).length) :
    mAt (makeCausalMask src) b i j = decide (j ≤ i) := by
  unfold mAt makeCausalMask
  rw [getD_map_lt src _ hb [] []]
  rw [getD_map_lt (List.range (src.getD b []).length) _ (by simpa using hi) [] 0]
  rw [getD_map_lt (List.range (src.getD b []).length) _ (by simpa using hj) false 0]
  rw [getD_range_lt hi 0, getD_range_lt hj 0]

theorem mAt_combineMasks (m1 m2 : Mask3) (b i j : ℕ)
    (hb1 : b < m1.length) (hb2 : b < m2.length)
    (hi1 : i < (m1.getD b []).length) (hi2 : i < (m2.getD b []).length)
    (hj1 : j < ((m1.getD b []).getD i []).length)
    (hj2 : j < ((m2.getD b []).getD i []).length) :
    mAt (combineMasks m1 m2) b i j = (mAt m1 b i j && mAt m2 b i j) := by
  unfold mAt combineMasks
  rw [getD_zipWith_lt _ m1 m2 hb1 hb2 [] [] []]
  rw [getD_zipWith_lt _ (m1.getD b []) (m2.getD b []) hi1 hi2 [] [] []]
  rw [getD_zipWith_lt _ ((m1.getD b []).getD i []) ((m2.getD b []).getD i []) hj1 hj2
    false false false]

theorem length_makeAttentionMask (q k : List (List Bool)) :
    (makeAttentionMask q k).length = min q.length k.length := by
  simp [makeAttentionMask]

theorem row_makeAttentionMask_onesNePad (cfg : Config) (src : TokBatch) (b : ℕ)
    (hb : b < src.length) :
    ((makeAttentionMask (onesLike src) (srcNePad cfg src)).getD b []).length
        = (src.getD b []).length
      ∧ ∀ i, i < (src.getD b []).length →
        (((makeAttentionMask (onesLike src) (srcNePad cfg src)).getD b []).getD i []).length
          = (src.getD b []).length := by
  unfold makeAttentionMask onesLike srcNePad
  rw [getD_zipWith_lt _ (src.map fun r => r.map fun _ => true)
      (src.map fun r => r.map fun t => decide (t ≠ cfg.pad_id))
      (by simpa using hb) (by simpa using hb) [] [] []]
  rw [getD_map_lt src _ hb [] [], getD_map_lt src _ hb [] []]
  constructor
  · simp
  · intro i hi
    rw [getD_map_lt ((src.getD b []).map fun _ => true) _ (by simpa using hi) [] false]
    simp

theorem row_makeCausalMask (src : TokBatch) (b : ℕ) (hb : b < src.length) :
    ((makeCausalMask src).getD b []).length = (src.getD b []).length
      ∧ ∀ i, i < (src.getD b []).length →
        (((makeCausalMask src).getD b []).getD i []).length = (src.getD b []).length := by
  unfold makeCausalMask
  rw [getD_map_lt src _ hb [] []]
  constructor
  · simp
  · intro i hi
    rw [getD_map_lt (List.range (src.getD b []).length) _ (by simpa using hi) [] 0]
    simp

/-- C2: the self-attention mask built by GPT2.__call__ permits query
position i of batch row b to attend to key position j iff j <= i and
src[b, j] != pad_id, and it is the pointwise conjunction of the padding
mask on keys and the causal mask. -/
theorem C2_decoder_mask (cfg : Config) (src : TokBatch) (b i j : ℕ)
    (hb : b < src.length) (hi : i < (src.getD b []).length)
    (hj : j < (src.getD b []).length) :
    (mAt (decoderMask cfg src) b i j = true
        ↔ j ≤ i ∧ (src.getD b []).getD j 0 ≠ cfg.pad_id)
      ∧ mAt (decoderMask cfg src) b i j
        = (mAt (makeAttentionMask (onesLike src) (srcNePad cfg src)) b i j
            && mAt (makeCausalMask src) b i j) := by
  have hA := row_makeAttentionMask_onesNePad cfg src b hb
  have hC := row_makeCausalMask src b hb
  have hcomb : mAt (decoderMask cfg src) b i j
      = (mAt (makeAttentionMask (onesLike src) (srcNePad cfg src)) b i j
          && mAt (makeCausalMask src) b i j) := by
    apply mAt_combineMasks
    · rw [length_makeAttentionMask]
      simp [onesLike, srcNePad, hb]
    · simpa [makeCausalMask] using hb
    · rw [hA.1]; exact hi
    · rw [hC.1]; exact hi
    · rw [hA.2 i hi]; exact hj
    · rw [hC.2 i hi]; exact hj
  refine ⟨?_, hcomb⟩
  rw [hcomb]
  rw [mAt_makeAttentionMask _ _ b i j (by simpa [onesLike] using hb)
    (by simpa [srcNePad] using hb)
    (by unfold onesLike; rw [getD_map_lt src _ hb [] []]; simpa using hi)
    (by unfold srcNePad; rw [getD_map_lt src _ hb [] []]; simpa using hj)]
  rw [mAt_makeCausalMask src b i j hb hi hj]
  unfold onesLike srcNePad
  rw [getD_map_lt src _ hb [] [], getD_map_lt src _ hb [] []]
  rw [getD_map_lt (src.getD b []) _ hi false 0, getD_map_lt (src.getD b []) _ hj false 0]
  simp [and_comm]

/-- Witness for C2 at cfgEx (pad_id 3) and src = [[3, 5]]: position 1 may
attend to position 1 but, pad aside, position 0 is a pad token, and
indeed the mask at (b, i, j) = (0, 1, 0) is false while (0, 1, 1) is
true. -/
theorem C2_decoder_mask_witness :
    (0 < ([[(3 : ℤ), 5]] : TokBatch).length
        ∧ 1 < (([[(3 : ℤ), 5]] : TokBatch).getD 0 []).length
        ∧ 0 < (([[(3 : ℤ), 5]] : TokBatch).getD 0 []).length)
      ∧ (mAt (decoderMask cfgEx [[(3 : ℤ), 5]]) 0 1 0 = true
          ↔ 0 ≤ 1 ∧ (([[(3 : ℤ), 5]] : TokBatch).getD 0 []).getD 0 0 ≠ cfgEx.pad_id) :=
  ⟨⟨by decide, by decide, by decide⟩,
    (C2_decoder_mask cfgEx [[(3 : ℤ), 5]] 0 1 0 (by decide) (by decide) (by decide)).1⟩

/-! ## Attention scores (claim C5) -/

theorem zipWith_mul_map_map {α : Type} (f g : α → ℝ) (l : List α) :
    List.zipWith (fun x y => x * y) (l.map f) (l.map g) = l.map (fun x => f x * g x) := by
  induction l with
  | nil => rfl
  | cons a t ih => simp [ih]

theorem dot_range_map (n : ℕ) (f g : ℕ → ℝ) :
    dot ((List.range n).map f) ((List.range n).map g) = sumRange n (fun d => f d * g d) := by
  unfold dot sumRange
  rw [zipWith_mul_map_map]

/-- C5 (amended): the pre-softmax scores are the per-head dot products of
the projected queries and keys divided by the square root of v_dim, the
value head dimension read at line 105; this agrees with the square root
of the query/key head dimension k_dim exactly when k_dim = v_dim. -/
theorem C5_scores_scaled_by_v_dim (cfg : Config) (p : MHAParams) (q k : T3) (b h i j : ℕ)
    (hbq : b < q.length) (hbk : b < k.length)
    (hi : i < (q.getD b []).length) (hj : j < (k.getD b []).length)
    (hh : h < cfg.num_heads) :
    idx4 (mhaScores cfg p q k) b h i j
        = sumRange cfg.k_dim (fun d =>
            idx3 (dense3 (cfg.num_heads * cfg.k_dim) p.Wq p.bq q) b i (h * cfg.k_dim + d)
              * idx3 (dense3 (cfg.num_heads * cfg.k_dim) p.Wk p.bk k) b j (h * cfg.k_dim + d))
          / Real.sqrt (cfg.v_dim : ℝ)
      ∧ (cfg.k_dim = cfg.v_dim →
          idx4 (mhaScores cfg p q k) b h i j
            = sumRange cfg.k_dim (fun d =>
                idx3 (dense3 (cfg.num_heads * cfg.k_dim) p.Wq p.bq q) b i (h * cfg.k_dim + d)
                  * idx3 (dense3 (cfg.num_heads * cfg.k_dim) p.Wk p.bk k) b j (h * cfg.k_dim + d))
              / Real.sqrt (cfg.k_dim : ℝ)) := by
  have h0 : 0 < (q.getD b []).length := lt_of_le_of_lt (Nat.zero_le i) hi
  have hmain : idx4 (mhaScores cfg p q k) b h i j
      = sumRange cfg.k_dim (fun d =>
          idx3 (dense3 (cfg.num_heads * cfg.k_dim) p.Wq p.bq q) b i (h * cfg.k_dim + d)
            * idx3 (dense3 (cfg.num_heads * cfg.k_dim) p.Wk p.bk k) b j (h * cfg.k_dim + d))
        / Real.sqrt (cfg.v_dim : ℝ) := by
    unfold mhaScores
    set qp := dense3 (cfg.num_heads * cfg.k_dim) p.Wq p.bq q with hqp
    set kp := dense3 (cfg.num_heads * cfg.k_dim) p.Wk p.bk k with hkp
    set q4 := reshape4 cfg.num_heads cfg.k_dim qp with hq4
    set k4 := reshape4 cfg.num_heads cfg.k_dim kp with hk4
    have hqpl : qp.length = q.length := by rw [hqp]; simp [dense3]
    have hkpl : kp.length = k.length := by rw [hkp]; simp [dense3]
    have hqprow : qp.getD b [] = (q.getD b []).map (dense (cfg.num_heads * cfg.k_dim) p.Wq p.bq) := by
      rw [hqp]; exact getD_map_lt q _ hbq [] []
    have hkprow : kp.getD b [] = (k.getD b []).map (dense (cfg.num_heads * cfg.k_dim) p.Wk p.bk) := by
      rw [hkp]; exact getD_map_lt k _ hbk [] []
    have hqprl : (qp.getD b []).length = (q.getD b []).length := by rw [hqprow]; simp
    have hkprl : (kp.getD b []).length = (k.getD b []).length := by rw [hkprow]; simp
    have hq4l : q4.length = q.length := by rw [hq4]; simp [reshape4, hqpl]
    have hk4l : k4.length = k.length := by rw [hk4]; simp [reshape4, hkpl]
    have hq4row : q4.getD b []
        = (qp.getD b []).map (fun v => (List.range cfg.num_heads).map (fun h2 =>
            (List.range cfg.k_dim).map (fun d => idx1 v (h2 * cfg.k_dim + d)))) := by
      rw [hq4]; exact getD_map_lt qp _ (by rw [hqpl]; exact hbq) [] []
    have hk4row : k4.getD b []
        = (kp.getD b []).map (fun v => (List.range cfg.num_heads).map (fun h2 =>
            (List.range cfg.k_dim).map (fun d => idx1 v (h2 * cfg.k_dim + d)))) := by
      rw [hk4]; exact getD_map_lt kp _ (by rw [hkpl]; exact hbk) [] []
    have hq4rl : (q4.getD b []).length = (q.getD b []).length := by
      rw [hq4row, List.length_map]; exact hqprl
    have hk4rl : (k4.getD b []).length = (k.getD b []).length := by
      rw [hk4row, List.length_map]; exact hkprl
    have hq40l : ((q4.getD b []).getD 0 []).length = cfg.num_heads := by
      rw [hq4row, getD_map_lt (qp.getD b []) _ (by rw [hqprl]; exact h0) [] []]
      simp
    have hqi : (q4.getD b []).getD i []
        = (List.range cfg.num_heads).map (fun h2 => (List.range cfg.k_dim).map (fun d =>
            idx1 (dense (cfg.num_heads * cfg.k_dim) p.Wq p.bq ((q.getD b []).getD i []))
              (h2 * cfg.k_dim + d))) := by
      rw [hq4row, getD_map_lt (qp.getD b []) _ (by rw [hqprl]; exact hi) [] [],
        hqprow, getD_map_lt (q.getD b []) _ hi [] []]
    have hkj : (k4.getD b []).getD j []
        = (List.range cfg.num_heads).map (fun h2 => (List.range cfg.k_dim).map (fun d =>
            idx1 (dense (cfg.num_heads * cfg.k_dim) p.Wk p.bk ((k.getD b []).getD j []))
              (h2 * cfg.k_dim + d))) := by
      rw [hk4row, getD_map_lt (kp.getD b []) _ (by rw [hkprl]; exact hj) [] [],
        hkprow, getD_map_lt (k.getD b []) _ hj [] []]
    have hs : (einsumQK q4 k4).getD b []
        = (List.range cfg.num_heads).map (fun h2 => (q4.getD b []).map (fun qi =>
            (k4.getD b []).map (fun kj => dot (qi.getD h2 []) (kj.getD h2 [])))) := by
      unfold einsumQK
      rw [getD_zipWith_lt _ q4 k4 (by rw [hq4l]; exact hbq) (by rw [hk4l]; exact hbk) [] [] []]
      rw [hq40l]
    have hslen : b < (einsumQK q4 k4).length := by
      unfold einsumQK
      rw [List.length_zipWith, hq4l, hk4l]
      exact lt_min hbq hbk
    unfold idx4 idx3 idx2 idx1
    rw [getD_map_lt (einsumQK q4 k4) _ hslen [] [], hs, List.map_map]
    rw [getD_map_lt (List.range cfg.num_heads) _ (by simpa using hh) [] 0, getD_range_lt hh 0]
    simp only [Function.comp_apply, List.map_map]
    rw [getD_map_lt (q4.getD b []) _ (by rw [hq4rl]; exact hi) [] []]
    simp only [Function.comp_apply, List.map_map]
    rw [getD_map_lt (k4.getD b []) _ (by rw [hk4rl]; exact hj) 0 []]
    simp only [Function.comp_apply]
    rw [hqi, hkj]
    rw [getD_map_lt (List.range cfg.num_heads) _ (by simpa using hh) [] 0, getD_range_lt hh 0]
    rw [getD_map_lt (List.range cfg.num_heads) _ (by simpa using hh) [] 0, getD_range_lt hh 0]
    rw [dot_range_map]
    have hqpi : (qp.getD b []).getD i []
        = dense (cfg.num_heads * cfg.k_dim) p.Wq p.bq ((q.getD b []).getD i []) := by
      rw [hqprow]; exact getD_map_lt (q.getD b []) _ hi [] []
    have hkpj : (kp.getD b []).getD j []
        = dense (cfg.num_heads * cfg.k_dim) p.Wk p.bk ((k.getD b []).getD j []) := by
      rw [hkprow]; exact getD_map_lt (k.getD b []) _ hj [] []
    rw [hqpi, hkpj]
    simp only [idx1]
  refine ⟨hmain, fun hkv => ?_⟩
  rw [hkv] at hmain ⊢
  exact hmain

/-- Counterexample to C5 as stated: with one head, k_dim 1 and v_dim 4,
at q = k = [[[1]]] and identity-like weights, the projected query/key dot
product is 1, so the claimed score is 1 / sqrt(k_dim) = 1, but the code
computes 1 / sqrt(v_dim) = 1/2. -/
theorem C5_counterexample :
    idx4 (mhaScores cfgC5 pC5 [[[1]]] [[[1]]]) 0 0 0 0
      ≠ sumRange cfgC5.k_dim (fun d =>
          idx3 (dense3 (cfgC5.num_heads * cfgC5.k_dim) pC5.Wq pC5.bq [[[1]]]) 0 0
              (0 * cfgC5.k_dim + d)
            * idx3 (dense3 (cfgC5.num_heads * cfgC5.k_dim) pC5.Wk pC5.bk [[[1]]]) 0 0
              (0 * cfgC5.k_dim + d))
        / Real.sqrt (cfgC5.k_dim : ℝ) := by
  have h4 : Real.sqrt 4 = 2 := by
    rw [show (4 : ℝ) = 2 ^ 2 by norm_num, Real.sqrt_sq (by norm_num : (0 : ℝ) ≤ 2)]
  have hL : idx4 (mhaScores cfgC5 pC5 [[[1]]] [[[1]]]) 0 0 0 0 = 1 / 2 := by
    simp [mhaScores, einsumQK, reshape4, dense3, dense, dot, idx4, idx3, idx2, idx1,
      sumRange, cfgC5, pC5, List.range_succ, h4]
  have hR : sumRange cfgC5.k_dim (fun d =>
        idx3 (dense3 (cfgC5.num_heads * cfgC5.k_dim) pC5.Wq pC5.bq [[[1]]]) 0 0
            (0 * cfgC5.k_dim + d)
          * idx3 (dense3 (cfgC5.num_heads * cfgC5.k_dim) pC5.Wk pC5.bk [[[1]]]) 0 0
            (0 * cfgC5.k_dim + d))
        / Real.sqrt (cfgC5.k_dim : ℝ) = 1 := by
    simp [dense3, dense, idx3, idx2, idx1, sumRange, cfgC5, pC5, List.range_succ]
  rw [hL, hR]
  norm_num

/-- Witness for the amended C5 at the same concrete configuration and
inputs: the score equals the projected dot product divided by
sqrt(v_dim). -/
theorem C5_scores_scaled_by_v_dim_witness :
    (0 < ([[[(1 : ℝ)]]] : T3).length ∧ 0 < (([[[(1 : ℝ)]]] : T3).getD 0 []).length
        ∧ 0 < cfgC5.num_heads)
      ∧ idx4 (mhaScores cfgC5 pC5 [[[1]]] [[[1]]]) 0 0 0 0
          = sumRange cfgC5.k_dim (fun d =>
              idx3 (dense3 (cfgC5.num_heads * cfgC5.k_dim) pC5.Wq pC5.bq [[[1]]]) 0 0
                  (0 * cfgC5.k_dim + d)
                * idx3 (dense3 (cfgC5.num_heads * cfgC5.k_dim) pC5.Wk pC5.bk [[[1]]]) 0 0
                  (0 * cfgC5.k_dim + d))
            / Real.sqrt (cfgC5.v_dim : ℝ) :=
  ⟨⟨by decide, by decide, by decide⟩,
    (C5_scores_scaled_by_v_dim cfgC5 pC5 [[[1]]] [[[1]]] 0 0 0 0 (by decide) (by decide)
      (by decide) (by decide) (by decide)).1⟩

/-! ## Well-formedness helpers -/

theorem wf3_length {α : Type} {x : List (List (List α))} {B L D : ℕ}
    (h : wf3 x B L D = true) : x.length = B := by
  unfold wf3 at h
  exact beq_iff_eq.mp (Bool.and_eq_true_iff.mp h).1

theorem wf3_row {α : Type} {x : List (List (List α))} {B L D : ℕ}
    (h : wf3 x B L D = true) {b : ℕ} (hb : b < B) :
    (x.getD b []).length = L ∧ ∀ v ∈ x.getD b [], v.length = D := by
  unfold wf3 at h
  rcases Bool.and_eq_true_iff.mp h with ⟨h1, h2⟩
  have hmem : x.getD b [] ∈ x := by
    rw [List.getD_eq_getElem x [] (by rw [beq_iff_eq.mp h1]; exact hb)]
    exact List.getElem_mem _
  rcases Bool.and_eq_true_iff.mp (List.all_eq_true.mp h2 _ hmem) with ⟨h4, h5⟩
  exact ⟨beq_iff_eq.mp h4, fun v hv => beq_iff_eq.mp (List.all_eq_true.mp h5 v hv)⟩

theorem wf3_entry {α : Type} {x : List (List (List α))} {B L D : ℕ}
    (h : wf3 x B L D = true) {b i : ℕ} (hb : b < B) (hi : i < L) :
    ((x.getD b []).getD i []).length = D := by
  rcases wf3_row h hb with ⟨hl, hd⟩
  refine hd _ ?_
  rw [List.getD_eq_getElem (x.getD b []) [] (by rw [hl]; exact hi)]
  exact List.getElem_mem _

/-! ## List sum helpers -/

theorem listSum_nonneg (l : List ℝ) (h : ∀ x ∈ l, 0 ≤ x) : 0 ≤ l.sum := by
  induction l with
  | nil => simp
  | cons a t ih =>
      simp only [List.sum_cons]
      have ha := h a (List.mem_cons_self a t)
      have ht := ih (fun x hx => h x (List.mem_cons_of_mem a hx))
      linarith

theorem listSum_pos : ∀ l : List ℝ, (∀ y ∈ l, 0 ≤ y) → ∀ x ∈ l, 0 < x → 0 < l.sum := by
  intro l
  induction l with
  | nil => intro _ x hx; cases hx
  | cons a t ih =>
      intro hn x hx hp
      simp only [List.sum_cons]
      rcases List.mem_cons.mp hx with rfl | hxt
      · have := listSum_nonneg t (fun y hy => hn y (List.mem_cons_of_mem _ hy))
        linarith
      · have ha := hn a (List.mem_cons_self a t)
        have := ih (fun y hy => hn y (List.mem_cons_of_mem _ hy)) x hxt hp
        linarith

theorem listSum_map_div (l : List ℝ) (c : ℝ) :
    (l.map (fun a => a / c)).sum = l.sum / c := by
  induction l with
  | nil => simp
  | cons a t ih => simp [ih, add_div]

/-! ## Softmax row lemmas (claim C6) -/

theorem zipWith_if_exp_nonneg : ∀ (mr : List Bool) (sr : List ℝ),
    ∀ x ∈ List.zipWith (fun mv s => if mv then Real.exp s else 0) mr sr, 0 ≤ x := by
  intro mr
  induction mr with
  | nil => intro sr x hx; simp at hx
  | cons a t ih =>
      intro sr x hx
      cases sr with
      | nil => simp at hx
      | cons s ss =>
          rw [List.zipWith_cons_cons] at hx
          rcases List.mem_cons.mp hx with rfl | hxt
          · cases a
            · simp
            · simp [(Real.exp_pos s).le]
          · exact ih ss x hxt

theorem softmaxRowMasked_nonneg (mr : List Bool) (sr : List ℝ) :
    ∀ x ∈ softmaxRowMasked mr sr, 0 ≤ x := by
  intro x hx
  unfold softmaxRowMasked at hx
  rcases List.mem_map.mp hx with ⟨a, ha, rfl⟩
  exact div_nonneg (zipWith_if_exp_nonneg mr sr a ha)
    (listSum_nonneg _ (zipWith_if_exp_nonneg mr sr))

theorem softmaxRowMasked_sum (mr : List Bool) (sr : List ℝ)
    (hpos : 0 < (List.zipWith (fun mv s => if mv then Real.exp s else 0) mr sr).sum) :
    (softmaxRowMasked mr sr).sum = 1 := by
  unfold softmaxRowMasked
  rw [listSum_map_div]
  exact div_self (ne_of_gt hpos)

theorem softmaxRowMasked_masked_zero (mr : List Bool) (sr : List ℝ) {j : ℕ}
    (hj1 : j < mr.length) (hj2 : j < sr.length) (hmj : mr.getD j false = false) :
    (softmaxRowMasked mr sr).getD j 0 = 0 := by
  unfold softmaxRowMasked
  have hjz : j < (List.zipWith (fun mv s => if mv then Real.exp s else 0) mr sr).length := by
    rw [List.length_zipWith]; exact lt_min hj1 hj2
  rw [getD_map_lt _ _ hjz 0 0]
  rw [getD_zipWith_lt _ mr sr hj1 hj2 0 false 0, hmj]
  simp

theorem softmaxZ_pos (mr : List Bool) (sr : List ℝ) (hlen : mr.length = sr.length)
    {n : ℕ} (hn : n < mr.length) (htrue : mr.getD n false = true) :
    0 < (List.zipWith (fun mv s => if mv then Real.exp s else 0) mr sr).sum := by
  refine listSum_pos _ (zipWith_if_exp_nonneg mr sr)
    ((List.zipWith (fun mv s => if mv then Real.exp s else 0) mr sr).getD n 0) ?_ ?_
  · rw [List.getD_eq_getElem _ 0 (by rw [List.length_zipWith, ← hlen, Nat.min_self]; exact hn)]
    exact List.getElem_mem _
  · rw [getD_zipWith_lt _ mr sr hn (by rw [← hlen]; exact hn) 0 false 0, htrue]
    simp [Real.exp_pos]

/-! ## Shape of the attention scores -/

theorem mhaScores_shape (cfg : Config) (p : MHAParams) (q k : T3) (B Lq Lk E E2 : ℕ)
    (b h i : ℕ) (hq : wf3 q B Lq E = true) (hk : wf3 k B Lk E2 = true)
    (hb : b < B) (hh : h < cfg.num_heads) (hi : i < Lq) :
    (mhaScores cfg p q k).length = B
      ∧ ((mhaScores cfg p q k).getD b []).length = cfg.num_heads
      ∧ (((mhaScores cfg p q k).getD b []).getD h []).length = Lq
      ∧ ((((mhaScores cfg p q k).getD b []).getD h []).getD i []).length = Lk := by
  have hql : q.length = B := wf3_length hq
  have hkl : k.length = B := wf3_length hk
  have hqr : (q.getD b []).length = Lq := (wf3_row hq hb).1
  have hkr : (k.getD b []).length = Lk := (wf3_row hk hb).1
  have hbq : b < q.length := by rw [hql]; exact hb
  have hbk : b < k.length := by rw [hkl]; exact hb
  have hi' : i < (q.getD b []).length := by rw [hqr]; exact hi
  have h0 : 0 < (q.getD b []).length := lt_of_le_of_lt (Nat.zero_le i) hi'
  unfold mhaScores
  set qp := dense3 (cfg.num_heads * cfg.k_dim) p.Wq p.bq q with hqp
  set kp := dense3 (cfg.num_heads * cfg.k_dim) p.Wk p.bk k with hkp
  set q4 := reshape4 cfg.num_heads cfg.k_dim qp with hq4
  set k4 := reshape4 cfg.num_heads cfg.k_dim kp with hk4
  have hqpl : qp.length = q.length := by rw [hqp]; simp [dense3]
  have hkpl : kp.length = k.length := by rw [hkp]; simp [dense3]
  have hqprow : qp.getD b [] = (q.getD b []).map (dense (cfg.num_heads * cfg.k_dim) p.Wq p.bq) := by
    rw [hqp]; exact getD_map_lt q _ hbq [] []
  have hkprow : kp.getD b [] = (k.getD b []).map (dense (cfg.num_heads * cfg.k_dim) p.Wk p.bk) := by
    rw [hkp]; exact getD_map_lt k _ hbk [] []
  have hqprl : (qp.getD b []).length = (q.getD b []).length := by rw [hqprow]; simp
  have hkprl : (kp.getD b []).length = (k.getD b []).length := by rw [hkprow]; simp
  have hq4l : q4.length = q.length := by rw [hq4]; simp [reshape4, hqpl]
  have hk4l : k4.length = k.length := by rw [hk4]; simp [reshape4, hkpl]
  have hq4row : q4.getD b []
      = (qp.getD b []).map (fun v => (List.range cfg.num_heads).map (fun h2 =>
          (List.range cfg.k_dim).map (fun d => idx1 v (h2 * cfg.k_dim + d)))) := by
    rw [hq4]; exact getD_map_lt qp _ (by rw [hqpl]; exact hbq) [] []
  have hk4row : k4.getD b []
      = (kp.getD b []).map (fun v => (List.range cfg.num_heads).map (fun h2 =>
          (List.range cfg.k_dim).map (fun d => idx1 v (h2 * cfg.k_dim + d)))) := by
    rw [hk4]; exact getD_map_lt kp _ (by rw [hkpl]; exact hbk) [] []
  have hq4rl : (q4.getD b []).length = (q.getD b []).length := by
    rw [hq4row, List.length_map]; exact hqprl
  have hk4rl : (k4.getD b []).length = (k.getD b []).length := by
    rw [hk4row, List.length_map]; exact hkprl
  have hq40l : ((q4.getD b []).getD 0 []).length = cfg.num_heads := by
    rw [hq4row, getD_map_lt (qp.getD b []) _ (by rw [hqprl]; exact h0) [] []]
    simp
  have hslen : b < (einsumQK q4 k4).length := by
    unfold einsumQK
    rw [List.length_zipWith, hq4l, hk4l]
    exact lt_min hbq hbk
  have hs : (einsumQK q4 k4).getD b []
      = (List.range cfg.num_heads).map (fun h2 => (q4.getD b []).map (fun qi =>
          (k4.getD b []).map (fun kj => dot (qi.getD h2 []) (kj.getD h2 [])))) := by
    unfold einsumQK
    rw [getD_zipWith_lt _ q4 k4 (by rw [hq4l]; exact hbq) (by rw [hk4l]; exact hbk) [] [] []]
    rw [hq40l]
  refine ⟨?_, ?_, ?_, ?_⟩
  · rw [List.length_map]
    unfold einsumQK
    rw [List.length_zipWith, hq4l, hk4l, hql, hkl, Nat.min_self]
  · rw [getD_map_lt (einsumQK q4 k4) _ hslen [] [], hs]
    simp
  · rw [getD_map_lt (einsumQK q4 k4) _ hslen [] [], hs, List.map_map,
      getD_map_lt (List.range cfg.num_heads) _ (by simpa using hh) [] 0, getD_range_lt hh 0]
    simp only [Function.comp_apply, List.map_map, List.length_map]
    rw [hq4rl, hqr]
  · rw [getD_map_lt (einsumQK q4 k4) _ hslen [] [], hs, List.map_map,
      getD_map_lt (List.range cfg.num_heads) _ (by simpa using hh) [] 0, getD_range_lt hh 0]
    simp only [Function.comp_apply, List.map_map]
    rw [getD_map_lt (q4.getD b []) _ (by rw [hq4rl]; exact hi') [] []]
    simp only [Function.comp_apply, List.length_map]
    rw [hk4rl, hkr]

/-- The attention row of query (b, h, i) is the masked softmax of the
mask row (b, i) against the matching score row. -/
theorem mhaAttRow_eq (cfg : Config) (p : MHAParams) (q k : T3) (m : Mask3)
    (B Lq Lk E E2 : ℕ) (b h i : ℕ)
    (hq : wf3 q B Lq E = true) (hk : wf3 k B Lk E2 = true) (hm : wf3 m B Lq Lk = true)
    (hb : b < B) (hh : h < cfg.num_heads) (hi : i < Lq) :
    ∃ srow : T1, srow.length = Lk
      ∧ mhaAttRow cfg p q k (some m) b h i
        = softmaxRowMasked ((m.getD b []).getD i []) srow := by
  obtain ⟨hsA, hsB, hsC, hsD⟩ := mhaScores_shape cfg p q k B Lq Lk E E2 b h i hq hk hb hh hi
  have hml : m.length = B := wf3_length hm
  have hmrl : (m.getD b []).length = Lq := (wf3_row hm hb).1
  refine ⟨(((mhaScores cfg p q k).getD b []).getD h []).getD i [], hsD, ?_⟩
  unfold mhaAttRow mhaAtt
  rw [getD_zipWith_lt _ (mhaScores cfg p q k) m (by rw [hsA]; exact hb)
    (by rw [hml]; exact hb) [] [] []]
  rw [getD_map_lt ((mhaScores cfg p q k).getD b []) _ (by rw [hsB]; exact hh) [] []]
  rw [getD_zipWith_lt softmaxRowMasked (m.getD b []) (((mhaScores cfg p q k).getD b []).getD h [])
    (by rw [hmrl]; exact hi) (by rw [hsC]; exact hi) [] [] []]

/-- C6: whenever the mask keeps at least one key in each query row, the
attention matrix is row-stochastic (entries nonnegative, each key row
summing to 1, masked keys carrying weight exactly 0), and the module
output is the output projection of the attention-weighted projected
values. -/
theorem C6_softmax_attention (cfg : Config) (p : MHAParams) (q k v : T3) (m : Mask3)
    (B Lq Lk E E2 : ℕ) (b h i : ℕ)
    (hq : wf3 q B Lq E = true) (hk : wf3 k B Lk E2 = true) (hm : wf3 m B Lq Lk = true)
    (hne : rowsNonempty m = true)
    (hb : b < B) (hh : h < cfg.num_heads) (hi : i < Lq) :
    (∀ x ∈ mhaAttRow cfg p q k (some m) b h i, 0 ≤ x)
      ∧ (mhaAttRow cfg p q k (some m) b h i).sum = 1
      ∧ (∀ j, j < Lk → mAt m b i j = false →
          (mhaAttRow cfg p q k (some m) b h i).getD j 0 = 0)
      ∧ (mha cfg p q k v (some m)).1
        = dense3 cfg.embed_dim p.Wo p.bo
            (mhaValues3 (mhaAtt cfg p q k (some m))
              (reshape4 cfg.num_heads cfg.v_dim (dense3 (cfg.num_heads * cfg.v_dim) p.Wv p.bv v)))
      ∧ (mha cfg p q k v (some m)).2 = mhaAtt cfg p q k (some m) := by
  obtain ⟨srow, hsl, heq⟩ := mhaAttRow_eq cfg p q k m B Lq Lk E E2 b h i hq hk hm hb hh hi
  have hml : m.length = B := wf3_length hm
  have hmrl : (m.getD b []).length = Lq := (wf3_row hm hb).1
  have hmr2 : ((m.getD b []).getD i []).length = Lk := wf3_entry hm hb hi
  have hbm : m.getD b [] ∈ m := by
    rw [List.getD_eq_getElem m [] (by rw [hml]; exact hb)]
    exact List.getElem_mem _
  have hrm : (m.getD b []).getD i [] ∈ m.getD b [] := by
    rw [List.getD_eq_getElem (m.getD b []) [] (by rw [hmrl]; exact hi)]
    exact List.getElem_mem _
  have hany := List.all_eq_true.mp (List.all_eq_true.mp hne _ hbm) _ hrm
  rcases List.any_eq_true.mp hany with ⟨x, hxm, hxt⟩
  have hx : x = true := by simpa using hxt
  subst hx
  obtain ⟨n, hn, hgn⟩ := List.getElem_of_mem hxm
  have htrue : ((m.getD b []).getD i []).getD n false = true := by
    rw [List.getD_eq_getElem _ false hn]; exact hgn
  have hZ := softmaxZ_pos ((m.getD b []).getD i []) srow (by rw [hmr2, hsl]) hn htrue
  rw [heq]
  refine ⟨softmaxRowMasked_nonneg _ _, softmaxRowMasked_sum _ _ hZ, ?_, rfl, rfl⟩
  intro j hj hmj
  exact softmaxRowMasked_masked_zero _ _ (by rw [hmr2]; exact hj) (by rw [hsl]; exact hj) hmj

/-! ## Shape preservation (claim C7) -/

theorem wf3_of_index {α : Type} (x : List (List (List α))) (B L D : ℕ)
    (h1 : x.length = B)
    (h2 : ∀ b, b < B → (x.getD b []).length = L)
    (h3 : ∀ b i, b < B → i < L → ((x.getD b []).getD i []).length = D) :
    wf3 x B L D = true := by
  unfold wf3
  refine Bool.and_eq_true_iff.mpr ⟨beq_iff_eq.mpr h1, List.all_eq_true.mpr ?_⟩
  intro r hr
  obtain ⟨b, hb, hgb⟩ := List.getElem_of_mem hr
  have hbB : b < B := by rw [← h1]; exact hb
  have hrb : x.getD b [] = r := by rw [List.getD_eq_getElem x [] hb, hgb]
  refine Bool.and_eq_true_iff.mpr ⟨beq_iff_eq.mpr ?_, List.all_eq_true.mpr ?_⟩
  · rw [← hrb]; exact h2 b hbB
  · intro v hv
    obtain ⟨i, hi, hgi⟩ := List.getElem_of_mem hv
    have hiL : i < L := by rw [← h2 b hbB, hrb]; exact hi
    have hvi : (x.getD b []).getD i [] = v := by
      rw [hrb, List.getD_eq_getElem r [] hi, hgi]
    rw [← hvi] at *
    exact beq_iff_eq.mpr (h3 b i hbB hiL)

theorem dense3_wf (F : ℕ) (W : T2) (bias : T1) (x : T3) (B L : ℕ)
    (h1 : x.length = B) (h2 : ∀ b, b < B → (x.getD b []).length = L) :
    wf3 (dense3 F W bias x) B L F = true := by
  apply wf3_of_index
  · simp [dense3, h1]
  · intro b hb
    unfold dense3
    rw [getD_map_lt x _ (by rw [h1]; exact hb) [] [], List.length_map]
    exact h2 b hb
  · intro b i hb hi
    unfold dense3
    rw [getD_map_lt x _ (by rw [h1]; exact hb) [] [],
      getD_map_lt (x.getD b []) _ (by rw [h2 b hb]; exact hi) [] []]
    simp [dense]

theorem relu3_wf {x : T3} {B L D : ℕ} (hx : wf3 x B L D = true) :
    wf3 (relu3 x) B L D = true := by
  have h1 := wf3_length hx
  apply wf3_of_index
  · simp [relu3, h1]
  · intro b hb
    unfold relu3
    rw [getD_map_lt x _ (by rw [h1]; exact hb) [] [], List.length_map]
    exact (wf3_row hx hb).1
  · intro b i hb hi
    unfold relu3
    rw [getD_map_lt x _ (by rw [h1]; exact hb) [] [],
      getD_map_lt (x.getD b []) _ (by rw [(wf3_row hx hb).1]; exact hi) [] [],
      List.length_map]
    exact wf3_entry hx hb hi

theorem layerNorm3_wf (scale bias : T1) {x : T3} {B L D : ℕ} (hx : wf3 x B L D = true) :
    wf3 (layerNorm3 scale bias x) B L D = true := by
  have h1 := wf3_length hx
  apply wf3_of_index
  · simp [layerNorm3, h1]
  · intro b hb
    unfold layerNorm3
    rw [getD_map_lt x _ (by rw [h1]; exact hb) [] [], List.length_map]
    exact (wf3_row hx hb).1
  · intro b i hb hi
    unfold layerNorm3
    rw [getD_map_lt x _ (by rw [h1]; exact hb) [] [],
      getD_map_lt (x.getD b []) _ (by rw [(wf3_row hx hb).1]; exact hi) [] []]
    unfold lnRow
    rw [List.length_map, List.length_range]
    exact wf3_entry hx hb hi

theorem dropout3_wf (rate : ℝ) (keep : ℕ → ℕ → ℕ → Bool) (det : Bool) {x : T3} {B L D : ℕ}
    (hx : wf3 x B L D = true) : wf3 (dropout3 rate keep det x) B L D = true := by
  have h1 := wf3_length hx
  cases det with
  | true => simpa [dropout3] using hx
  | false =>
      apply wf3_of_index
      · simp [dropout3, h1]
      · intro b hb
        unfold dropout3
        simp only [Bool.false_eq_true, if_false]
        rw [getD_map_lt (List.range x.length) _ (by simpa [h1] using hb) [] 0,
          getD_range_lt (by rw [h1]; exact hb) 0, List.length_map, List.length_range]
        exact (wf3_row hx hb).1
      · intro b i hb hi
        unfold dropout3
        simp only [Bool.false_eq_true, if_false]
        rw [getD_map_lt (List.range x.length) _ (by simpa [h1] using hb) [] 0,
          getD_range_lt (by rw [h1]; exact hb) 0,
          getD_map_lt (List.range (x.getD b []).length) _
            (by rw [List.length_range, (wf3_row hx hb).1]; exact hi) [] 0,
          getD_range_lt (by rw [(wf3_row hx hb).1]; exact hi) 0,
          List.length_map, List.length_range]
        exact wf3_entry hx hb hi

theorem add3_wf {x y : T3} {B L D : ℕ} (hx : wf3 x B L D = true) (hy : wf3 y B L D = true) :
    wf3 (add3 x y) B L D = true := by
  have hxl := wf3_length hx
  have hyl := wf3_length hy
  apply wf3_of_index
  · simp [add3, hxl, hyl]
  · intro b hb
    unfold add3
    rw [getD_zipWith_lt _ x y (by rw [hxl]; exact hb) (by rw [hyl]; exact hb) [] [] [],
      List.length_zipWith, (wf3_row hx hb).1, (wf3_row hy hb).1, Nat.min_self]
  · intro b i hb hi
    unfold add3
    rw [getD_zipWith_lt _ x y (by rw [hxl]; exact hb) (by rw [hyl]; exact hb) [] [] [],
      getD_zipWith_lt _ (x.getD b []) (y.getD b []) (by rw [(wf3_row hx hb).1]; exact hi)
        (by rw [(wf3_row hy hb).1]; exact hi) [] [] [],
      List.length_zipWith, wf3_entry hx hb hi, wf3_entry hy hb hi, Nat.min_self]

theorem posEncoder_wf (cfg : Config) {x : T3} {B L : ℕ}
    (hx : wf3 x B L cfg.embed_dim = true) :
    wf3 (posEncoder cfg x) B L cfg.embed_dim = true := by
  have h1 := wf3_length hx
  apply wf3_of_index
  · simp [posEncoder, h1]
  · intro b hb
    unfold posEncoder
    rw [getD_map_lt x _ (by rw [h1]; exact hb) [] [], List.length_zipWith,
      List.length_range, (wf3_row hx hb).1, Nat.min_self]
  · intro b i hb hi
    unfold posEncoder
    have hiL : i < (x.getD b []).length := by rw [(wf3_row hx hb).1]; exact hi
    rw [getD_map_lt x _ (by rw [h1]; exact hb) [] [],
      getD_zipWith_lt _ (List.range (x.getD b []).length) (x.getD b [])
        (by simpa using hiL) hiL [] 0 [],
      List.length_zipWith, wf3_entry hx hb hi]
    simp [peRow]

theorem feedForward_wf (cfg : Config) (p : FFParams) (det : Bool) {x : T3} {B L D : ℕ}
    (hx : wf3 x B L D = true) :
    wf3 (feedForward cfg p det x) B L cfg.embed_dim = true := by
  have w1 : wf3 (dense3 cfg.ff_dim p.W1 p.b1 x) B L cfg.ff_dim = true :=
    dense3_wf _ _ _ _ B L (wf3_length hx) (fun b hb => (wf3_row hx hb).1)
  have w2 := relu3_wf w1
  have w3 := dropout3_wf cfg.dropout_rate p.keep1 det w2
  have w4 : wf3 (dense3 cfg.embed_dim p.W2 p.b2
      (dropout3 cfg.dropout_rate p.keep1 det (relu3 (dense3 cfg.ff_dim p.W1 p.b1 x))))
      B L cfg.embed_dim = true :=
    dense3_wf _ _ _ _ B L (wf3_length w3) (fun b hb => (wf3_row w3 hb).1)
  exact dropout3_wf cfg.dropout_rate p.keep2 det w4

theorem mhaScores_len (cfg : Config) (p : MHAParams) (q k : T3) :
    (mhaScores cfg p q k).length = min q.length k.length := by
  unfold mhaScores einsumQK
  rw [List.length_map, List.length_zipWith]
  simp [reshape4, dense3]

theorem mhaScores_row_of_len_zero (cfg : Config) (p : MHAParams) (q k : T3)
    {B Lk E E2 : ℕ} {b : ℕ}
    (hq : wf3 q B 0 E = true) (hk : wf3 k B Lk E2 = true) (hb : b < B) :
    (mhaScores cfg p q k).getD b [] = [] := by
  have hql := wf3_length hq
  have hkl := wf3_length hk
  have hqnil : q.getD b [] = [] := List.length_eq_zero.mp (wf3_row hq hb).1
  have hq4b : (reshape4 cfg.num_heads cfg.k_dim
      (dense3 (cfg.num_heads * cfg.k_dim) p.Wq p.bq q)).getD b [] = [] := by
    unfold reshape4 dense3
    rw [getD_map_lt (q.map _) _ (by rw [List.length_map, hql]; exact hb) [] [],
      getD_map_lt q _ (by rw [hql]; exact hb) [] [], hqnil]
    simp
  unfold mhaScores
  rw [getD_map_lt (einsumQK _ _) _ (by
      unfold einsumQK
      rw [List.length_zipWith]
      simp only [reshape4, dense3, List.length_map]
      rw [hql, hkl, Nat.min_self]
      exact hb) [] []]
  unfold einsumQK
  rw [getD_zipWith_lt _ _ _ (by simp only [reshape4, dense3, List.length_map]; rw [hql]; exact hb)
    (by simp only [reshape4, dense3, List.length_map]; rw [hkl]; exact hb) [] [] []]
  rw [hq4b]
  simp

theorem mha_fst_wf (cfg : Config) (p : MHAParams) (q k v : T3) (m : Mask3)
    {B Lq Lk E E2 : ℕ}
    (hq : wf3 q B Lq E = true) (hk : wf3 k B Lk E2 = true)
    (hvl : v.length = B) (hm : wf3 m B Lq Lk = true) (hH : 0 < cfg.num_heads) :
    wf3 (mha cfg p q k v (some m)).1 B Lq cfg.embed_dim = true := by
  have hql := wf3_length hq
  have hkl := wf3_length hk
  have hml := wf3_length hm
  have hattlen : (mhaAtt cfg p q k (some m)).length = B := by
    unfold mhaAtt
    rw [List.length_zipWith, mhaScores_len, hql, hkl, hml, Nat.min_self, Nat.min_self]
  have hv4len : (reshape4 cfg.num_heads cfg.v_dim
      (dense3 (cfg.num_heads * cfg.v_dim) p.Wv p.bv v)).length = B := by
    simp [reshape4, dense3, hvl]
  have havlen : (einsumAV (mhaAtt cfg p q k (some m))
      (reshape4 cfg.num_heads cfg.v_dim (dense3 (cfg.num_heads * cfg.v_dim) p.Wv p.bv v))).length
      = B := by
    unfold einsumAV
    rw [List.length_zipWith, hattlen, hv4len, Nat.min_self]
  have hattrow0 : ∀ b, b < B → ((( mhaAtt cfg p q k (some m)).getD b []).getD 0 []).length = Lq := by
    intro b hb
    have hsblen : b < (mhaScores cfg p q k).length := by
      rw [mhaScores_len, hql, hkl, Nat.min_self]; exact hb
    have hatb : (mhaAtt cfg p q k (some m)).getD b []
        = ((mhaScores cfg p q k).getD b []).map
            (fun sh => List.zipWith softmaxRowMasked (m.getD b []) sh) := by
      unfold mhaAtt
      rw [getD_zipWith_lt _ (mhaScores cfg p q k) m hsblen (by rw [hml]; exact hb) [] [] []]
    rcases Nat.eq_zero_or_pos Lq with hLq0 | hLqpos
    · subst hLq0
      rw [hatb, mhaScores_row_of_len_zero cfg p q k hq hk hb]
      simp
    · obtain ⟨_, hsB, hsC, _⟩ := mhaScores_shape cfg p q k B Lq Lk E E2 b 0 0 hq hk hb hH hLqpos
      rw [hatb, getD_map_lt ((mhaScores cfg p q k).getD b []) _ (by rw [hsB]; exact hH) [] [],
        List.length_zipWith, (wf3_row hm hb).1, hsC, Nat.min_self]
  refine dense3_wf _ _ _ _ B Lq ?_ ?_
  · unfold mhaValues3
    rw [List.length_map]
    exact havlen
  intro b hb
  unfold mhaValues3
  rw [getD_map_lt _ _ (by rw [havlen]; exact hb) [] [], List.length_map]
  unfold einsumAV
  rw [getD_zipWith_lt _ (mhaAtt cfg p q k (some m)) _ (by rw [hattlen]; exact hb)
    (by rw [hv4len]; exact hb) [] [] [], List.length_map, List.length_range]
  exact hattrow0 b hb

theorem decoderLayer_fst_wf (cfg : Config) (p : DecParams) (x memory : T3) (dm em : Mask3)
    (det : Bool) {B L Lm D2 : ℕ}
    (hx : wf3 x B L cfg.embed_dim = true) (hmem : wf3 memory B Lm D2 = true)
    (hdm : wf3 dm B L L = true) (hem : wf3 em B L Lm = true) (hH : 0 < cfg.num_heads) :
    wf3 (decoderLayer cfg p x memory dm em det).1 B L cfg.embed_dim = true := by
  have w1 := mha_fst_wf cfg p.saP x x x dm hx hx (wf3_length hx) hdm hH
  have wx1 : wf3 (layerNorm3 p.ln1s p.ln1b
      (add3 x (dropout3 cfg.dropout_rate p.k1 det (mha cfg p.saP x x x (some dm)).1)))
      B L cfg.embed_dim = true :=
    layerNorm3_wf _ _ (add3_wf hx (dropout3_wf _ _ _ w1))
  have w2 := mha_fst_wf cfg p.caP _ memory memory em wx1 hmem (wf3_length hmem) hem hH
  have wx2 : wf3 (layerNorm3 p.ln2s p.ln2b
      (add3 (layerNorm3 p.ln1s p.ln1b
          (add3 x (dropout3 cfg.dropout_rate p.k1 det (mha cfg p.saP x x x (some dm)).1)))
        (dropout3 cfg.dropout_rate p.k2 det
          (mha cfg p.caP
            (layerNorm3 p.ln1s p.ln1b
              (add3 x (dropout3 cfg.dropout_rate p.k1 det (mha cfg p.saP x x x (some dm)).1)))
            memory memory (some em)).1)))
      B L cfg.embed_dim = true :=
    layerNorm3_wf _ _ (add3_wf wx1 (dropout3_wf _ _ _ w2))
  exact layerNorm3_wf _ _ (add3_wf wx2 (feedForward_wf cfg p.ffP det wx2))

/-- C7: PositionalEncoder, FeedForward and the first component of
TransformerDecoderLayer all preserve the shape [B, L, embed_dim] of their
primary input. -/
theorem C7_shape_preservation (cfg : Config) (pf : FFParams) (pd : DecParams)
    (x memory : T3) (dm em : Mask3) (det : Bool) {B L Lm D2 : ℕ}
    (hx : wf3 x B L cfg.embed_dim = true) (hmem : wf3 memory B Lm D2 = true)
    (hdm : wf3 dm B L L = true) (hem : wf3 em B L Lm = true) (hH : 0 < cfg.num_heads) :
    wf3 (posEncoder cfg x) B L cfg.embed_dim = true
      ∧ wf3 (feedForward cfg pf det x) B L cfg.embed_dim = true
      ∧ wf3 (decoderLayer cfg pd x memory dm em det).1 B L cfg.embed_dim = true :=
  ⟨posEncoder_wf cfg hx, feedForward_wf cfg pf det hx,
    decoderLayer_fst_wf cfg pd x memory dm em det hx hmem hdm hem hH⟩

/-- Witness for C7 at cfgEx with x = [[[1, 2]]] of shape [1, 1, 2]
(embed_dim 2). -/
theorem C7_shape_preservation_witness :
    (wf3 ([[[1, 2]]] : T3) 1 1 cfgEx.embed_dim = true
        ∧ wf3 ([[[true]]] : Mask3) 1 1 1 = true ∧ 0 < cfgEx.num_heads)
      ∧ (wf3 (posEncoder cfgEx [[[1, 2]]]) 1 1 cfgEx.embed_dim = true
          ∧ wf3 (feedForward cfgEx ff0 true [[[1, 2]]]) 1 1 cfgEx.embed_dim = true
          ∧ wf3 (decoderLayer cfgEx dp0 [[[1, 2]]] [[[1, 2]]] [[[true]]] [[[true]]] true).1
              1 1 cfgEx.embed_dim = true) :=
  ⟨⟨by decide, by decide, by decide⟩,
    @C7_shape_preservation cfgEx ff0 dp0 [[[1, 2]]] [[[1, 2]]] [[[true]]] [[[true]]] true 1 1 1 2
      (by decide) (by decide) (by decide) (by decide) (by decide)⟩

/-! ## Positional encoding (claim C10) -/

theorem wf3_mem {α : Type} {x : List (List (List α))} {B L D : ℕ}
    (h : wf3 x B L D = true) {r : List (List α)} (hr : r ∈ x) :
    r.length = L ∧ ∀ v ∈ r, v.length = D := by
  unfold wf3 at h
  rcases Bool.and_eq_true_iff.mp h with ⟨_, h2⟩
  rcases Bool.and_eq_true_iff.mp (List.all_eq_true.mp h2 r hr) with ⟨h3, h4⟩
  exact ⟨beq_iff_eq.mp h3, fun v hv => beq_iff_eq.mp (List.all_eq_true.mp h4 v hv)⟩

theorem zipWith_replicate_right {α β γ : Type} (g : α → β → γ) (x : List α) (c : β) :
    List.zipWith g x (List.replicate x.length c) = x.map (fun a => g a c) := by
  induction x with
  | nil => rfl
  | cons a t ih => simp only [List.length_cons, List.replicate_succ,
      List.zipWith_cons_cons, List.map_cons, ih]

theorem divTerm_eq_rpow (cfg : Config) (m : ℕ) :
    divTerm cfg m = (10000 : ℝ) ^ (-(2 * (m : ℝ)) / (cfg.embed_dim : ℝ)) := by
  unfold divTerm
  rw [Real.rpow_def_of_pos (by norm_num : (0 : ℝ) < 10000)]
  congr 1
  ring

/-- C10: the positional encoder adds a batch-independent tensor PE with
PE[t, 2m] = sin(t * 10000 ^ (-2m / embed_dim)) and
PE[t, 2m + 1] = cos(t * 10000 ^ (-2m / embed_dim)). -/
theorem C10_positional_encoding (cfg : Config) (x : T3) {B L : ℕ}
    (hx : wf3 x B L cfg.embed_dim = true) :
    posEncoder cfg x = add3 x (peTensor cfg B L)
      ∧ (∀ b b', b < B → b' < B →
          (peTensor cfg B L).getD b [] = (peTensor cfg B L).getD b' [])
      ∧ (∀ b t m2, b < B → t < L → 2 * m2 < cfg.embed_dim →
          idx3 (peTensor cfg B L) b t (2 * m2)
            = Real.sin ((t : ℝ) * (10000 : ℝ) ^ (-(2 * (m2 : ℝ)) / (cfg.embed_dim : ℝ))))
      ∧ (∀ b t m2, b < B → t < L → 2 * m2 + 1 < cfg.embed_dim →
          idx3 (peTensor cfg B L) b t (2 * m2 + 1)
            = Real.cos ((t : ℝ) * (10000 : ℝ) ^ (-(2 * (m2 : ℝ)) / (cfg.embed_dim : ℝ)))) := by
  have hxl := wf3_length hx
  have hpeb : ∀ b, b < B →
      (peTensor cfg B L).getD b [] = (List.range L).map (fun t => peRow cfg t) := by
    intro b hb
    unfold peTensor
    rw [getD_map_lt (List.range B) _ (by simpa using hb) [] 0]
  have hpe : ∀ b t : ℕ, b < B → t < L →
      ((peTensor cfg B L).getD b []).getD t [] = peRow cfg t := by
    intro b t hb ht
    rw [hpeb b hb, getD_map_lt (List.range L) _ (by simpa using ht) [] 0, getD_range_lt ht 0]
  refine ⟨?_, ?_, ?_, ?_⟩
  · unfold posEncoder add3 peTensor
    rw [← hxl, List.map_const', List.length_range, zipWith_replicate_right]
    refine List.map_congr_left ?_
    intro r hr
    rw [(wf3_mem hx hr).1, List.zipWith_map_right, List.zipWith_comm]
  · intro b b' hb hb'
    rw [hpeb b hb, hpeb b' hb']
  · intro b t m2 hb ht hm
    unfold idx3 idx2 idx1
    rw [hpe b t hb ht]
    unfold peRow
    rw [getD_map_lt (List.range cfg.embed_dim) _ (by simpa using hm) 0 0, getD_range_lt hm 0]
    rw [if_pos (by omega : 2 * m2 % 2 = 0), (by omega : 2 * m2 / 2 = m2)]
    unfold radians
    rw [divTerm_eq_rpow]
  · intro b t m2 hb ht hm
    unfold idx3 idx2 idx1
    rw [hpe b t hb ht]
    unfold peRow
    rw [getD_map_lt (List.range cfg.embed_dim) _ (by simpa using hm) 0 0, getD_range_lt hm 0]
    rw [if_neg (by omega : ¬ (2 * m2 + 1) % 2 = 0), (by omega : (2 * m2 + 1) / 2 = m2)]
    unfold radians
    rw [divTerm_eq_rpow]

/-- Witness for C10 at cfgEx (embed_dim 2) and x = [[[5, 7]]]. -/
theorem C10_positional_encoding_witness :
    (wf3 ([[[5, 7]]] : T3) 1 1 cfgEx.embed_dim = true)
      ∧ (posEncoder cfgEx [[[5, 7]]] = add3 [[[5, 7]]] (peTensor cfgEx 1 1)
          ∧ (∀ b b', b < 1 → b' < 1 →
              (peTensor cfgEx 1 1).getD b [] = (peTensor cfgEx 1 1).getD b' [])
          ∧ (∀ b t m2, b < 1 → t < 1 → 2 * m2 < cfgEx.embed_dim →
              idx3 (peTensor cfgEx 1 1) b t (2 * m2)
                = Real.sin ((t : ℝ) * (10000 : ℝ)
                    ^ (-(2 * (m2 : ℝ)) / (cfgEx.embed_dim : ℝ))))
          ∧ (∀ b t m2, b < 1 → t < 1 → 2 * m2 + 1 < cfgEx.embed_dim →
              idx3 (peTensor cfgEx 1 1) b t (2 * m2 + 1)
                = Real.cos ((t : ℝ) * (10000 : ℝ)
                    ^ (-(2 * (m2 : ℝ)) / (cfgEx.embed_dim : ℝ))))) :=
  ⟨by decide, @C10_positional_encoding cfgEx [[[5, 7]]] 1 1 (by decide)⟩

/-- Witness for C6 at cfgEx with q = k = v = [[[1]]], all-true mask and
empty weight lists. -/
theorem C6_softmax_attention_witness :
    (wf3 ([[[1]]] : T3) 1 1 1 = true ∧ wf3 ([[[true]]] : Mask3) 1 1 1 = true
        ∧ rowsNonempty [[[true]]] = true ∧ 0 < 1 ∧ 0 < cfgEx.num_heads)
      ∧ ((∀ x ∈ mhaAttRow cfgEx mha0 [[[1]]] [[[1]]] (some [[[true]]]) 0 0 0, 0 ≤ x)
          ∧ (mhaAttRow cfgEx mha0 [[[1]]] [[[1]]] (some [[[true]]]) 0 0 0).sum = 1
          ∧ (∀ j, j < 1 → mAt [[[true]]] 0 0 j = false →
              (mhaAttRow cfgEx mha0 [[[1]]] [[[1]]] (some [[[true]]]) 0 0 0).getD j 0 = 0)
          ∧ (mha cfgEx mha0 [[[1]]] [[[1]]] [[[1]]] (some [[[true]]])).1
            = dense3 cfgEx.embed_dim mha0.Wo mha0.bo
                (mhaValues3 (mhaAtt cfgEx mha0 [[[1]]] [[[1]]] (some [[[true]]]))
                  (reshape4 cfgEx.num_heads cfgEx.v_dim
                    (dense3 (cfgEx.num_heads * cfgEx.v_dim) mha0.Wv mha0.bv [[[1]]])))
          ∧ (mha cfgEx mha0 [[[1]]] [[[1]]] [[[1]]] (some [[[true]]])).2
            = mhaAtt cfgEx mha0 [[[1]]] [[[1]]] (some [[[true]]])) :=
  ⟨⟨by decide, by decide, by decide, by decide, by decide⟩,
    C6_softmax_attention cfgEx mha0 [[[1]]] [[[1]]] [[[1]]] [[[true]]] 1 1 1 1 1 0 0 0
      (by decide) (by decide) (by decide) (by decide) (by decide) (by decide) (by decide)⟩

end GPT2Jax

namespace GPT2Jax

/-! ## Claims about evaluating the forward pass

Evaluating GPT2.__call__ requires importing model.py, whose line 20
imports Config from config.py; the class body of Config reads unbound
names, so every evaluation of the forward pass stops with a NameError
(the first one is the read of jnp in the default of id_dtype).  Even with
an importable config, GPT2.__call__ line 254 calls each decoder layer
with 3 positional arguments while TransformerDecoderLayer.__call__
requires 5, a TypeError, and unpacks the 3 returned values into 2 names,
a ValueError.  The theorems below record these failures. -/

/-- C8: evaluating the forward pass raises before any logits exist: the
Config class body reads the unbound names jnp, Any and List, Config never
binds the k_dim attribute that MultiHeadAttention reads, and the decoder
layer is called with 3 positional arguments against 5 required
parameters, its 3 results unpacked into 2 names. -/
theorem C8_forward_raises :
    (∀ (cfg : Config) (P : GPT2Params) (src : TokBatch) (train ra : Bool),
        ∃ e, gpt2Forward cfg P src train ra = .error e)
      ∧ configImport = .error (.nameError .nJnp)
      ∧ PyName.nAny ∈ (configClassBody.map Prod.fst).flatten
      ∧ PyName.nJnp ∈ (configClassBody.map Prod.fst).flatten
      ∧ PyName.nList ∈ (configClassBody.map Prod.fst).flatten
      ∧ PyName.k_dim ∈ mhaConfigReads
      ∧ PyName.k_dim ∉ configPyFieldNames
      ∧ decoderLayerParamNames.length = 5
      ∧ (∀ (x : T3) (m : Mask3) (det : Bool), (decoderLayerCallArgs x m det).length = 3)
      ∧ (∀ (cfg : Config) (p : DecParams) (x : T3) (m : Mask3) (det : Bool),
          callDecoderLayer cfg p (decoderLayerCallArgs x m det) = .error .typeErrArity)
      ∧ (∀ (cfg : Config) (p : DecParams) (x memory : T3) (dm em : Mask3) (det : Bool),
          ∃ out, callDecoderLayer cfg p [.t3 x, .t3 memory, .m3 dm, .m3 em, .flag det]
              = .ok out ∧ out.length = 3)
      ∧ (∀ a b c : PyVal, unpack2 [a, b, c] = .error .valueErrUnpack) :=
  ⟨fun _ _ _ _ _ => ⟨.nameError .nJnp, rfl⟩, rfl, by decide, by decide, by decide,
    by decide, by decide, rfl, fun _ _ _ => rfl, fun _ _ _ _ _ => rfl,
    fun _ _ _ _ _ _ _ => ⟨_, rfl, rfl⟩, fun _ _ _ => rfl⟩

/-- C1 (code bug): the forward pass never computes the claimed layer
composition; evaluating it at the concrete input [[0]] stops with the
NameError raised while importing config.py, and the decoder-layer call
GPT2.__call__ makes, layer(x, decoder_mask, not train), is itself a
TypeError against the 5 required parameters of
TransformerDecoderLayer.__call__. -/
theorem C1_forward_never_composes :
    gpt2Forward cfgEx P0 [[0]] false false = .error (.nameError .nJnp)
      ∧ callDecoderLayer cfgEx dp0 (decoderLayerCallArgs [] [] true)
        = .error .typeErrArity :=
  ⟨rfl, rfl⟩

/-- C3 (code bug): the two inputs [[0, 1]] and [[0, 2]] agree at position
0, but neither evaluation produces logits at any position: both raise the
import-time NameError, so there are no logits for the causality statement
to compare. -/
theorem C3_no_logits_to_compare :
    gpt2Forward cfgEx P0 [[0, 1]] false false = .error (.nameError .nJnp)
      ∧ gpt2Forward cfgEx P0 [[0, 2]] false false = .error (.nameError .nJnp) :=
  ⟨rfl, rfl⟩

/-- C4 (code bug): at the concrete input [[5]] the forward pass returns
logits of no shape at all, with or without return_attn: both evaluations
raise the import-time NameError. -/
theorem C4_no_return_shape :
    gpt2Forward cfgEx P0 [[5]] false true = .error (.nameError .nJnp)
      ∧ gpt2Forward cfgEx P0 [[5]] false false = .error (.nameError .nJnp) :=
  ⟨rfl, rfl⟩

/-- C9 (code bug): the mask half of the claim is true of the mask
expression: for src = [[3, 4]] (first token pad, pad_id 3) query row 0 is
entirely masked while row 1 keeps key 1; for src = [[5, 3]] (first token
not pad) every query row keeps key 0.  But no NaN ever reaches logits:
evaluating the forward pass at [[3]] raises the import-time NameError. -/
theorem C9_masked_rows_and_no_logits :
    mAt (decoderMask cfgEx [[3, 4]]) 0 0 0 = false
      ∧ mAt (decoderMask cfgEx [[3, 4]]) 0 0 1 = false
      ∧ mAt (decoderMask cfgEx [[3, 4]]) 0 1 0 = false
      ∧ mAt (decoderMask cfgEx [[3, 4]]) 0 1 1 = true
      ∧ mAt (decoderMask cfgEx [[5, 3]]) 0 0 0 = true
      ∧ mAt (decoderMask cfgEx [[5, 3]]) 0 1 0 = true
      ∧ gpt2Forward cfgEx P0 [[3]] false false = .error (.nameError .nJnp) :=
  ⟨by decide, by decide, by decide, by decide, by decide, by decide, rfl⟩

end GPT2Jax
